import Mathlib

/-!
Verification of the OS/2 kLIBC resolver shim in
`examples/dvbinfo/getaddrinfo.c` / `getaddrinfo.h`.

The C functions `gai_strerror`, `getnameinfo`, `gai_error_from_herrno`,
`freeaddrinfo`, `makeaddrinfo`, `makeipv4info` and `getaddrinfo` are
embedded as pure Lean functions.  Platform services used by the C code
(`malloc`/`strdup`, `gethostbyname`/`h_errno`, `inet_addr`, `strtoul`,
`snprintf`, byte-order conversion) are modelled from their documented C
semantics:

* the heap is modelled by a running allocation counter; every successful
  `malloc`/`strdup` yields a fresh block id and the set of ids passed to
  `free` is recorded, so leak/double-free questions become questions
  about lists of block ids;
* `gethostbyname` and the allocator are oracles supplied in an `Env`
  record, and the global `h_errno` / `errno` live in an explicit state
  record `St` threaded through the calls;
* `inet_addr` follows the classic BSD `inet_aton` parser (1–4 dot
  separated C-numeric parts, 32-bit wrap-around accumulation, the
  "a.b.c.d / a.b.c / a.b / a" forms, first trailing character must be
  NUL or whitespace) with `INADDR_NONE` returned on failure;
* `strtoul(s, &end, 0)` skips leading whitespace, accepts an optional
  sign, auto-detects base 8/10/16, saturates at `ULONG_MAX = 2^32-1`
  (u_long is 32-bit here) and reports the number of characters consumed
  (0 when no digits were converted, so `end == nptr`);
* the host is little-endian x86 (OS/2), so `htonl`/`ntohl`/`htons`/
  `ntohs` are byte swaps.
-/

namespace GAI

/-- EAI error codes from getaddrinfo.h -/
def EAI_BADFLAGS : Int := -1

def EAI_NONAME : Int := -2

def EAI_AGAIN : Int := -3

def EAI_FAIL : Int := -4

def EAI_NODATA : Int := -5

def EAI_FAMILY : Int := -6

def EAI_SOCKTYPE : Int := -7

def EAI_SERVICE : Int := -8

def EAI_ADDRFAMILY : Int := -9

def EAI_MEMORY : Int := -10

def EAI_OVERFLOW : Int := -11

def EAI_SYSTEM : Int := -12

/-- NI_* flags from getaddrinfo.h -/
def NI_NUMERICHOST : Nat := 0x01

def NI_NUMERICSERV : Nat := 0x02

def NI_NOFQDN : Nat := 0x04

def NI_NAMEREQD : Nat := 0x08

def NI_DGRAM : Nat := 0x10

/-- `_NI_MASK` in the C file (leading underscore dropped). -/
def NI_MASK : Nat := NI_NUMERICHOST ||| NI_NUMERICSERV ||| NI_NOFQDN ||| NI_NAMEREQD ||| NI_DGRAM

/-- AI_* flags from getaddrinfo.h -/
def AI_PASSIVE : Nat := 1

def AI_CANONNAME : Nat := 2

def AI_NUMERICHOST : Nat := 4

/-- `_AI_MASK` in the C file (leading underscore dropped). -/
def AI_MASK : Nat := AI_PASSIVE ||| AI_CANONNAME ||| AI_NUMERICHOST

/-- BSD socket constants used by the C file (OS/2 BSD values). -/
def AF_INET : Nat := 2

def SOCK_STREAM : Nat := 1

def SOCK_DGRAM : Nat := 2

def SOCK_RAW : Nat := 3

def IPPROTO_TCP : Nat := 6

def IPPROTO_UDP : Nat := 17

def INADDR_ANY : Nat := 0

def INADDR_LOOPBACK : Nat := 0x7f000001

def INADDR_NONE : Nat := 0xffffffff

/-- netdb.h h_errno values (NO_ADDRESS == NO_DATA on this platform). -/
def HOST_NOT_FOUND : Nat := 1

def TRY_AGAIN : Nat := 2

def NO_RECOVERY : Nat := 3

def NO_DATA : Nat := 4

def NO_ADDRESS : Nat := 4

/-- errno value set on allocation failure (exact numeric value immaterial). -/
def ENOMEM : Nat := 12

/-- sizeof(struct sockaddr_in) on this platform. -/
def SIZEOF_SOCKADDR_IN : Nat := 16

/-- 16-bit byte swap; the host is little-endian x86, network order is big-endian. -/
def bswap16 (x : Nat) : Nat :=
  let x := x % 2 ^ 16
  (x % 256) * 256 + x / 256

/-- 32-bit byte swap. -/
def bswap32 (x : Nat) : Nat :=
  let x := x % 2 ^ 32
  (x % 256) * 2 ^ 24 + (x / 2 ^ 8 % 256) * 2 ^ 16 + (x / 2 ^ 16 % 256) * 2 ^ 8 + x / 2 ^ 24

def htons (x : Nat) : Nat := bswap16 x

def ntohs (x : Nat) : Nat := bswap16 x

def htonl (x : Nat) : Nat := bswap32 x

def ntohl (x : Nat) : Nat := bswap32 x

/-- C `isspace` in the default locale. -/
def isSpaceC (c : Char) : Bool :=
  c = ' ' ∨ c = '\t' ∨ c = '\n' ∨ c = '\x0b' ∨ c = '\x0c' ∨ c = '\r'

/-- Value of a hexadecimal digit character, if any (C `isxdigit`). -/
def hexDigitVal (c : Char) : Option Nat :=
  if c.isDigit then some (c.toNat - 48)
  else if 'a' ≤ c ∧ c ≤ 'f' then some (c.toNat - 87)
  else if 'A' ≤ c ∧ c ≤ 'F' then some (c.toNat - 55)
  else none

/-- Digit value accepted by `strtoul` for a given base. -/
def digitValBase (base : Nat) (c : Char) : Option Nat :=
  match hexDigitVal c with
  | some v => if v < base then some v else none
  | none => none

/-- `strtoul` digit loop: exact accumulated value and number of digits consumed. -/
def stDigits (base : Nat) : List Char → Nat → Nat → Nat × Nat
  | [], v, n => (v, n)
  | c :: cs, v, n =>
    match digitValBase base c with
    | some d => stDigits base cs (v * base + d) (n + 1)
    | none => (v, n)

/--
Model of C `strtoul(s, &end, 0)` with 32-bit `unsigned long`:
returns `(value, consumed)` where `consumed` is `end - s`
(0 when no conversion was performed).  Overflow saturates at `2^32 - 1`;
a converted negative value wraps modulo `2^32`.
-/
def strtoulModel (s : String) : Nat × Nat :=
  let cs := s.data
  let sp := (cs.takeWhile isSpaceC).length
  let rest1 := cs.drop sp
  let signInfo : Bool × Nat × List Char :=
    match rest1 with
    | '-' :: r => (true, 1, r)
    | '+' :: r => (false, 1, r)
    | r => (false, 0, r)
  let neg := signInfo.1
  let sgn := signInfo.2.1
  let rest2 := signInfo.2.2
  let baseInfo : Nat × Nat × List Char :=
    match rest2 with
    | '0' :: x :: r =>
      if (x = 'x' || x = 'X') && (match r with | h :: _ => (hexDigitVal h).isSome | [] => false) then
        (16, 2, r)
      else (8, 0, '0' :: x :: r)
    | '0' :: [] => (8, 0, ['0'])
    | r => (10, 0, r)
  let base := baseInfo.1
  let pre := baseInfo.2.1
  let rest3 := baseInfo.2.2
  let vn := stDigits base rest3 0 0
  if vn.2 = 0 then (0, 0)
  else
    let uv :=
      if vn.1 ≥ 2 ^ 32 then 2 ^ 32 - 1
      else if neg then (2 ^ 32 - vn.1 % 2 ^ 32) % 2 ^ 32
      else vn.1
    (uv, sp + sgn + pre + vn.2)

/--
BSD `inet_aton` digit loop: accepts decimal digits in any base
(classic quirk: `isdigit` is tested before the base bound) and
hex letters when the base is 16; accumulates modulo `2^32` (u_long).
-/
def iaDigits (base : Nat) : List Char → Nat → Nat × List Char
  | [], v => (v, [])
  | c :: cs, v =>
    if c.isDigit then iaDigits base cs ((v * base + (c.toNat - 48)) % 2 ^ 32)
    else if base = 16 ∧ (hexDigitVal c).isSome then
      iaDigits base cs ((v * 16 + (hexDigitVal c).getD 0) % 2 ^ 32)
    else (v, c :: cs)

/-- One C-numeric part of an `inet_aton` address (0x… hex, 0… octal, decimal). -/
def iaPart (cs : List Char) : Option (Nat × List Char) :=
  match cs with
  | [] => none
  | c :: rest =>
    if c.isDigit then
      if c = '0' then
        match rest with
        | x :: rest2 =>
          if x = 'x' ∨ x = 'X' then some (iaDigits 16 rest2 0)
          else some (iaDigits 8 rest 0)
        | [] => some (0, [])
      else some (iaDigits 10 (c :: rest) 0)
    else none

/--
`inet_aton` part-collection loop: at most 3 values may be pushed onto
`parts` before the final value; a 4th dot fails.  Fuel is the string
length + 1, which bounds the ≤ 4 iterations.
-/
def iaLoop : Nat → List Char → List Nat → Option (Nat × List Nat × List Char)
  | 0, _, _ => none
  | fuel + 1, cs, parts =>
    match iaPart cs with
    | none => none
    | some (val, rest) =>
      match rest with
      | '.' :: rest2 =>
        if 3 ≤ parts.length then none
        else iaLoop fuel rest2 (parts ++ [val])
      | _ => some (val, parts, rest)

/--
Model of BSD `inet_aton`: returns the parsed address in HOST byte order,
or `none` on failure.  Only the first trailing character is checked
(must be NUL or whitespace), as in the classic implementation.
-/
def inet_aton (s : String) : Option Nat :=
  let cs := s.data
  match iaLoop (cs.length + 1) cs [] with
  | none => none
  | some (val, parts, rest) =>
    let trailOK := match rest with | [] => true | c :: _ => isSpaceC c
    if trailOK = false then none
    else
      match parts with
      | [] => some val
      | [a] => if val ≥ 2 ^ 24 ∨ a ≥ 2 ^ 8 then none else some (a * 2 ^ 24 + val)
      | [a, b] =>
        if val ≥ 2 ^ 16 ∨ a ≥ 2 ^ 8 ∨ b ≥ 2 ^ 8 then none
        else some (a * 2 ^ 24 + b * 2 ^ 16 + val)
      | [a, b, c] =>
        if val ≥ 2 ^ 8 ∨ a ≥ 2 ^ 8 ∨ b ≥ 2 ^ 8 ∨ c ≥ 2 ^ 8 then none
        else some (a * 2 ^ 24 + b * 2 ^ 16 + c * 2 ^ 8 + val)
      | _ => none

/-- Model of `inet_addr`: network-order address, `INADDR_NONE` on failure. -/
def inet_addr (s : String) : Nat :=
  match inet_aton s with
  | some v => htonl v
  | none => INADDR_NONE

/-- The static `gai_errlist` table, including the `{0, ""}` sentinel. -/
def gai_errlist : List (Int × String) :=
  [(0, "Error 0"),
   (EAI_BADFLAGS, "Invalid flag used"),
   (EAI_NONAME, "Host or service not found"),
   (EAI_AGAIN, "Temporary name service failure"),
   (EAI_FAIL, "Non-recoverable name service failure"),
   (EAI_NODATA, "No data for host name"),
   (EAI_FAMILY, "Unsupported address family"),
   (EAI_SOCKTYPE, "Unsupported socket type"),
   (EAI_SERVICE, "Incompatible service for socket type"),
   (EAI_ADDRFAMILY, "Unavailable address family for host name"),
   (EAI_MEMORY, "Memory allocation failure"),
   (EAI_OVERFLOW, "Buffer overflow"),
   (EAI_SYSTEM, "System error"),
   (0, "")]

def gai_unknownerr : String := "Unrecognized error number"

/-- The `for (i = 0; *gai_errlist[i].msg; i++)` search loop. -/
def gai_strerror_loop : List (Int × String) → Int → String
  | [], _ => gai_unknownerr
  | (c, m) :: rest, n =>
    if m = "" then gai_unknownerr
    else if n = c then m
    else gai_strerror_loop rest n

/-- C `gai_strerror`. -/
def gai_strerror (errnum : Int) : String :=
  gai_strerror_loop gai_errlist errnum

/-- `struct sockaddr_in` contents (`HAVE_SA_LEN` holds, so `sin_len` is present). -/
structure SockAddrIn where
  sin_family : Nat
  sin_len : Nat
  sin_port : Nat
  sin_addr : Nat
deriving DecidableEq, Repr

/-- The dotted-decimal string built by `snprintf(host, hostlen, "%u.%u.%u.%u", …)`. -/
def ipv4Dotted (ipv4 : Nat) : String :=
  toString (ipv4 >>> 24) ++ "." ++ toString (ipv4 >>> 16 % 256) ++ "." ++
    toString (ipv4 >>> 8 % 256) ++ "." ++ toString (ipv4 % 256)

/-- What `snprintf` leaves in a buffer of the given capacity: at most `cap - 1` characters. -/
def snprintfOut (cap : Nat) (s : String) : String :=
  ⟨s.data.take (cap - 1)⟩

/-- The service half of `getnameinfo`: port formatted with `"%u"` of `ntohs(sin_port)`. -/
def servStep (sa : SockAddrIn) (serv : Option Nat) (hout : Option String) :
    Int × Option String × Option String :=
  match serv with
  | none => (0, hout, none)
  | some servlen =>
    let ss := toString (ntohs sa.sin_port)
    if ss.length ≥ servlen then (EAI_OVERFLOW, hout, some (snprintfOut servlen ss))
    else (0, hout, some (snprintfOut servlen ss))

/--
C `getnameinfo`.  `host`/`serv` are `none` for NULL buffers, otherwise the
buffer capacities; the result carries the error code and what each
supplied buffer holds afterwards.
-/
def getnameinfo (sa : SockAddrIn) (salen : Nat) (host : Option Nat) (serv : Option Nat)
    (flags : Nat) : Int × Option String × Option String :=
  if salen < SIZEOF_SOCKADDR_IN ∨ sa.sin_family ≠ AF_INET then (EAI_FAMILY, none, none)
  else if flags &&& NI_MASK ≠ flags then (EAI_BADFLAGS, none, none)
  else
    match host with
    | none => servStep sa serv none
    | some hostlen =>
      if flags &&& NI_NUMERICHOST = 0 ∧ flags &&& NI_NAMEREQD ≠ 0 then (EAI_NONAME, none, none)
      else
        let hs := ipv4Dotted (ntohl sa.sin_addr)
        if hs.length ≥ hostlen then (EAI_OVERFLOW, some (snprintfOut hostlen hs), none)
        else servStep sa serv (some (snprintfOut hostlen hs))

/-- C `gai_error_from_herrno` (reads the global `h_errno`). -/
def gai_error_from_herrno (herr : Nat) : Int :=
  if herr = HOST_NOT_FOUND then EAI_NONAME
  else if herr = NO_ADDRESS then EAI_NODATA
  else if herr = NO_RECOVERY then EAI_FAIL
  else if herr = TRY_AGAIN then EAI_AGAIN
  else EAI_SYSTEM

/--
One `struct addrinfo` node as built by `makeaddrinfo`.  Heap blocks are
named by the id the allocator handed out: `nid` is the node struct's own
block, `ai_addr` carries the id of the owned address buffer plus the
bytes `memcpy`ed into it (`none` models a NULL `ai_addr`), and
`ai_canonname` the id and contents of the `strdup`ed canonical name.
The `ai_next` chain is represented by the enclosing `List ANode`.
-/
structure ANode where
  nid : Nat
  ai_flags : Nat
  ai_family : Nat
  ai_socktype : Nat
  ai_protocol : Nat
  ai_addrlen : Nat
  ai_addr : Option (Nat × SockAddrIn)
  ai_canonname : Option (Nat × String)
deriving DecidableEq, Repr

/--
Block ids passed to `free` by C `freeaddrinfo` on a list head:
`free(res->ai_canonname); free(res->ai_addr); free(res->ai_next); free(res);`
— note that `free(res->ai_next)` releases only the next node's own
struct block, nothing it owns, and nothing beyond it.
-/
def freeaddrinfoFrees : List ANode → List Nat
  | [] => []
  | r :: next =>
    (match r.ai_canonname with | none => [] | some (b, _) => [b]) ++
    (match r.ai_addr with | none => [] | some (b, _) => [b]) ++
    (match next with | [] => [] | m :: _ => [m.nid]) ++
    [r.nid]

/-- All heap blocks owned by a result list: every node struct, address buffer and canonical name. -/
def ownedBlocks : List ANode → List Nat
  | [] => []
  | r :: rest =>
    (match r.ai_canonname with | none => [] | some (b, _) => [b]) ++
    (match r.ai_addr with | none => [] | some (b, _) => [b]) ++
    [r.nid] ++ ownedBlocks rest

/-- `struct hostent` as used by the C code: name, address type, length, first address (network order). -/
structure Hostent where
  h_name : String
  h_addrtype : Nat
  h_length : Nat
  h_addr : Nat
deriving DecidableEq, Repr

/-- Outcome of a `gethostbyname` call: an entry, or NULL with the `h_errno` it sets. -/
inductive HostLookup where
  | found : Hostent → HostLookup
  | notfound : Nat → HostLookup

/-- Platform oracles: the name-lookup result per hostname, and whether the n-th allocation succeeds. -/
structure Env where
  ghbn : String → HostLookup
  allocOK : Nat → Bool

/--
Mutable platform state threaded through a call: the allocation counter
(source of fresh block ids), the ids handed out and the ids freed, the
globals `h_errno` and `errno`, and a trace bit recording whether
`gethostbyname` was invoked.
-/
structure St where
  allocCnt : Nat
  allocated : List Nat
  freed : List Nat
  h_errno : Nat
  errno : Option Nat
  calledGhbn : Bool
deriving DecidableEq, Repr

/-- Fresh state with a given leftover `h_errno` value. -/
def initSt (h0 : Nat) : St := ⟨0, [], [], h0, none, false⟩

/-- One `malloc`/`strdup` attempt: fresh block id on success, NULL on failure. -/
def stMalloc (env : Env) (s : St) : Option Nat × St :=
  let i := s.allocCnt
  let s := { s with allocCnt := i + 1 }
  if env.allocOK i then (some i, { s with allocated := s.allocated ++ [i] })
  else (none, s)

/-- Record a batch of `free`s. -/
def stFreeList (s : St) (bs : List Nat) : St := { s with freed := s.freed ++ bs }

/-- Model of `gethostbyname`: marks the call, returns the entry or sets `h_errno`. -/
def gethostbynameM (env : Env) (name : String) (s : St) : Option Hostent × St :=
  match env.ghbn name with
  | .found h => (some h, { s with calledGhbn := true })
  | .notfound he => (none, { s with calledGhbn := true, h_errno := he })

/--
C `makeaddrinfo`: allocates the node struct, then `malloc(addrlen)` +
`memcpy`, then optionally `strdup(canonname)`.  On any allocation
failure the failsafe `freeaddrinfo(res)` releases the pieces built so
far (the partial node has `ai_next == NULL`, so the single-node
`freeaddrinfoFrees` matches the C failsafe exactly).
-/
def makeaddrinfo (env : Env) (af ty proto : Nat) (addr : SockAddrIn) (addrlen : Nat)
    (canonname : Option String) (s : St) : Option ANode × St :=
  match stMalloc env s with
  | (none, s) => (none, s)
  | (some nid, s) =>
    match stMalloc env s with
    | (none, s) =>
      (none, stFreeList s (freeaddrinfoFrees [⟨nid, 0, af, ty, proto, addrlen, none, none⟩]))
    | (some ablk, s) =>
      match canonname with
      | none => (some ⟨nid, 0, af, ty, proto, addrlen, some (ablk, addr), none⟩, s)
      | some cn =>
        match stMalloc env s with
        | (none, s) =>
          (none,
           stFreeList s (freeaddrinfoFrees [⟨nid, 0, af, ty, proto, addrlen, some (ablk, addr), none⟩]))
        | (some cblk, s) =>
          (some ⟨nid, 0, af, ty, proto, addrlen, some (ablk, addr), some (cblk, cn)⟩, s)

/-- C `makeipv4info`: zeroed `sockaddr_in` with family/len/port/address filled in. -/
def makeipv4info (env : Env) (ty proto ip port : Nat) (name : Option String) (s : St) :
    Option ANode × St :=
  let addr : SockAddrIn :=
    { sin_family := AF_INET, sin_len := SIZEOF_SOCKADDR_IN, sin_port := port, sin_addr := ip }
  makeaddrinfo env AF_INET ty proto addr SIZEOF_SOCKADDR_IN name s

/-- The fields of `struct addrinfo` that `getaddrinfo` reads from the caller's hints. -/
structure Hints where
  ai_flags : Nat
  ai_family : Nat
  ai_socktype : Nat
  ai_protocol : Nat
deriving DecidableEq, Repr

/-- The `switch (hints->ai_socktype)` of the validation block: derived protocol or `EAI_SOCKTYPE`. -/
def socktypeProto (st : Nat) : Except Int Nat :=
  if st = SOCK_STREAM then .ok IPPROTO_TCP
  else if st = SOCK_DGRAM then .ok IPPROTO_UDP
  else if st = SOCK_RAW ∨ st = 0 then .ok 0
  else .error EAI_SOCKTYPE

/--
The hint-validation block of `getaddrinfo` (lines 253–286): returns the
derived `(protocol, flags)` pair or the validation error.  NULL hints
leave `protocol = 0`, `flags = 0`.
-/
def hintsParse : Option Hints → Except Int (Nat × Nat) :=
  fun hints =>
  match hints with
  | none => .ok (0, 0)
  | some h =>
    let flags := h.ai_flags
    if flags &&& AI_MASK ≠ flags then .error EAI_BADFLAGS
    else if h.ai_family ≠ 0 ∧ h.ai_family ≠ AF_INET then .error EAI_FAMILY
    else
      match socktypeProto h.ai_socktype with
      | .error e => .error e
      | .ok protocol =>
        if h.ai_protocol ≠ 0 ∧ protocol ≠ 0 ∧ protocol ≠ h.ai_protocol then .error EAI_SERVICE
        else .ok (protocol, flags)

/--
The address-determination block of `getaddrinfo` (lines 290–316):
default addresses for a NULL node, `inet_addr` for numeric literals, and
the (possibly skipped) `gethostbyname` path otherwise.  Returns the
network-order address and the canonical name captured from the hostent.
-/
def addrStage (env : Env) (flags : Nat) (node : Option String) (s : St) :
    Except Int (Nat × Option String) × St :=
  match node with
  | none =>
    ((.ok (if flags &&& AI_PASSIVE ≠ 0 then htonl INADDR_ANY else htonl INADDR_LOOPBACK, none)), s)
  | some nd =>
    let ip := inet_addr nd
    if ip = INADDR_NONE then
      let es := if flags &&& AI_NUMERICHOST = 0 then gethostbynameM env nd s else (none, s)
      match es.1 with
      | none => (.error (gai_error_from_herrno es.2.h_errno), es.2)
      | some entry =>
        if entry.h_length ≠ 4 ∨ entry.h_addrtype ≠ AF_INET then (.error EAI_FAMILY, es.2)
        else
          (.ok (entry.h_addr, if flags &&& AI_CANONNAME ≠ 0 then some entry.h_name else none), es.2)
    else (.ok (ip, none), s)

/--
The service-resolution block of `getaddrinfo` (lines 321–334):
NULL service means port 0; otherwise `strtoul(service, &end, 0)` must
consume the whole string and yield at most 65535, else `EAI_SERVICE`.
The port is stored in network order.
-/
def servicePort : Option String → Except Int Nat :=
  fun service =>
  match service with
  | none => .ok 0
  | some sv =>
    let dc := strtoulModel sv
    if dc.2 < sv.length ∨ dc.1 > 65535 then .error EAI_SERVICE
    else .ok (htons dc.1)

/-- The `if (flags & AI_PASSIVE) info->ai_flags |= AI_PASSIVE;` step applied to a fresh record. -/
def passiveAdjust (flags : Nat) (info : ANode) : ANode :=
  if flags &&& AI_PASSIVE ≠ 0 then { info with ai_flags := info.ai_flags ||| AI_PASSIVE }
  else info

/--
The TCP half of the result-building block (lines 349–361): prepends a
TCP record when the protocol filter allows it; on allocation failure
sets `errno = ENOMEM` and returns `EAI_SYSTEM` with `*res` untouched
(still holding whatever was already linked).
-/
def tcpStep (env : Env) (protocol flags ip port : Nat) (name : Option String)
    (res : List ANode) (s : St) : Int × List ANode × St :=
  if protocol = 0 ∨ protocol = IPPROTO_TCP then
    match makeipv4info env SOCK_STREAM IPPROTO_TCP ip port name s with
    | (none, s) => (EAI_SYSTEM, res, { s with errno := some ENOMEM })
    | (some info, s) => (0, passiveAdjust flags info :: res, s)
  else (0, res, s)

/--
The result-building block of `getaddrinfo` (lines 336–361): UDP record
first (becoming `*res`), then the TCP record prepended in front of it.
-/
def buildStage (env : Env) (protocol flags ip port : Nat) (name : Option String) (s : St) :
    Int × List ANode × St :=
  if protocol = 0 ∨ protocol = IPPROTO_UDP then
    match makeipv4info env SOCK_DGRAM IPPROTO_UDP ip port name s with
    | (none, s) => (EAI_SYSTEM, [], { s with errno := some ENOMEM })
    | (some info, s) => tcpStep env protocol flags ip port name [passiveAdjust flags info] s
  else tcpStep env protocol flags ip port name [] s

/--
C `getaddrinfo`.  `res0` is the value the caller's `*res` holds on
entry (the hint-validation failures return before the code executes
`*res = NULL`, so that value survives them); the returned list is the
final contents of `*res` ( `[]` = NULL).
-/
def getaddrinfo (env : Env) (node service : Option String) (hints : Option Hints)
    (res0 : List ANode) (s0 : St) : Int × List ANode × St :=
  match hintsParse hints with
  | .error e => (e, res0, s0)
  | .ok pf =>
    match addrStage env pf.2 node s0 with
    | (.error e, s) => (e, [], s)
    | (.ok ipname, s) =>
      let name :=
        if pf.2 &&& AI_CANONNAME ≠ 0 ∧ ipname.2 = none then node else ipname.2
      match servicePort service with
      | .error e => (e, [], s)
      | .ok port => buildStage env pf.1 pf.2 ipname.1 port name s

/-! ### Concrete environments and runs used by the theorems -/

/-- Every allocation succeeds; lookups fail with `HOST_NOT_FOUND`. -/
def envAllOK : Env := ⟨fun _ => .notfound HOST_NOT_FOUND, fun _ => true⟩

/-- The first two allocations succeed, the third fails (UDP record built, TCP node malloc fails). -/
def envFailAt2 : Env := ⟨fun _ => .notfound HOST_NOT_FOUND, fun i => decide (i < 2)⟩

/-- Lookups succeed with a 4-byte `AF_INET` entry; every allocation succeeds. -/
def envFound : Env := ⟨fun _ => .found ⟨"host.example", AF_INET, 4, 0x0100007F⟩, fun _ => true⟩

/--
A two-element result list exactly as `getaddrinfo` builds it: canonical
names requested, numeric host, unspecified socket type — the TCP record
(node 3, address buffer 4, canonical name 5) linked in front of the UDP
record (node 0, address buffer 1, canonical name 2).
-/
def twoNodeList : List ANode :=
  (getaddrinfo envAllOK (some "1.2.3.4") (some "0") (some ⟨AI_CANONNAME, 0, 0, 0⟩) []
    (initSt HOST_NOT_FOUND)).2.1

/-- The run in which the UDP record is built and the subsequent TCP node allocation fails. -/
def tcpFailRun : Int × List ANode × St :=
  getaddrinfo envFailAt2 (some "1.2.3.4") none none [] (initSt HOST_NOT_FOUND)

/-- A garbage node standing for whatever the caller's uninitialised `*res` pointed at. -/
def garbageNode : ANode := ⟨99, 0, 0, 0, 0, 0, none, none⟩

/-! ### Theorems -/

/--
C1: `freeaddrinfo` on a two-element list (a TCP record whose `ai_next`
is a UDP record) is claimed to free both nodes and all their owned
sub-allocations.  It does not: `free(res->ai_next)` releases only the
second node's struct block, so on the list `getaddrinfo` actually
builds, the UDP record's address buffer (block 1) and canonical-name
string (block 2) are never freed, while its struct (block 0) is freed
before its dependent allocations.
-/
theorem freeaddrinfo_two_node_list_leaks :
    twoNodeList.length = 2 ∧
    twoNodeList.map ANode.ai_protocol = [IPPROTO_TCP, IPPROTO_UDP] ∧
    freeaddrinfoFrees twoNodeList = [5, 4, 0, 3] ∧
    ownedBlocks twoNodeList = [5, 4, 3, 2, 1, 0] ∧
    1 ∈ ownedBlocks twoNodeList ∧ 1 ∉ freeaddrinfoFrees twoNodeList ∧
    2 ∈ ownedBlocks twoNodeList ∧ 2 ∉ freeaddrinfoFrees twoNodeList := by
  decide

/--
C2 counterexample: when the UDP record has been linked into `*res` and
the TCP node allocation then fails, the call does return `EAI_SYSTEM`
with `errno = ENOMEM`, but it performs no `free` at all and leaves the
UDP record linked in the caller's `*res` — contradicting the claim that
the already-linked record is released and the output pointer holds no
partially built list.
-/
theorem getaddrinfo_tcp_alloc_fail_keeps_udp_cex :
    tcpFailRun.1 = EAI_SYSTEM ∧
    tcpFailRun.2.2.errno = some ENOMEM ∧
    tcpFailRun.2.1 ≠ [] ∧
    tcpFailRun.2.2.freed = [] := by
  decide

/--
C3 counterexample: a hint-validation failure (`ai_flags = 8`, outside
`_AI_MASK`) returns `EAI_BADFLAGS` before the code executes
`*res = NULL`, so the caller's output pointer keeps its previous
(garbage) value instead of being set to null as claimed.
-/
theorem getaddrinfo_badflags_leaves_res_cex :
    getaddrinfo envAllOK (some "1.2.3.4") none (some ⟨8, 0, 0, 0⟩) [garbageNode]
        (initSt HOST_NOT_FOUND) =
      (EAI_BADFLAGS, [garbageNode], initSt HOST_NOT_FOUND) ∧
    [garbageNode] ≠ ([] : List ANode) := by
  decide

/--
C4 counterexample: "255.255.255.255" is a valid dotted-decimal literal
(`inet_aton` parses it to `0xFFFFFFFF`), but that value equals
`INADDR_NONE`, so `getaddrinfo` treats the literal as non-numeric and
takes the name-lookup path: with valid hints (`AI_NUMERICHOST`) the
call fails with `EAI_NONAME` and returns no record at all, instead of
using the literal directly.
-/
theorem getaddrinfo_broadcast_literal_cex :
    inet_aton "255.255.255.255" = some INADDR_NONE ∧
    (getaddrinfo envAllOK (some "255.255.255.255") (some "0") (some ⟨AI_NUMERICHOST, 0, 0, 0⟩) []
        (initSt HOST_NOT_FOUND)).1 = EAI_NONAME ∧
    (getaddrinfo envAllOK (some "255.255.255.255") (some "0") (some ⟨AI_NUMERICHOST, 0, 0, 0⟩) []
        (initSt HOST_NOT_FOUND)).2.1 = [] := by
  decide

/--
C5 counterexample: with a non-numeric hostname and `AI_NUMERICHOST`,
the lookup is indeed skipped (`gethostbyname` never called), but the
returned error is `gai_error_from_herrno()` applied to whatever stale
`h_errno` an earlier platform call left behind: with leftover
`TRY_AGAIN` the call returns `EAI_AGAIN`, not `EAI_NONAME`.
-/
theorem getaddrinfo_numerichost_stale_herrno_cex :
    (getaddrinfo envAllOK (some "example.com") none (some ⟨AI_NUMERICHOST, 0, 0, 0⟩) []
        (initSt TRY_AGAIN)).1 = EAI_AGAIN ∧
    (getaddrinfo envAllOK (some "example.com") none (some ⟨AI_NUMERICHOST, 0, 0, 0⟩) []
        (initSt TRY_AGAIN)).1 ≠ EAI_NONAME ∧
    (getaddrinfo envAllOK (some "example.com") none (some ⟨AI_NUMERICHOST, 0, 0, 0⟩) []
        (initSt TRY_AGAIN)).2.2.calledGhbn = false := by
  decide

/--
C6 counterexample: an invalid service string ("99999", above 65535)
does produce `EAI_SERVICE`, but only after the hostname lookup has
already run: with a non-numeric hostname that resolves successfully,
the `gethostbyname` trace bit is set when `EAI_SERVICE` is returned —
contradicting "without the hostname lookup ever running".
-/
theorem getaddrinfo_service_after_lookup_cex :
    (getaddrinfo envFound (some "host.example") (some "99999") none []
        (initSt HOST_NOT_FOUND)).1 = EAI_SERVICE ∧
    (getaddrinfo envFound (some "host.example") (some "99999") none []
        (initSt HOST_NOT_FOUND)).2.2.calledGhbn = true := by
  decide

/-- The codes appearing in `gai_errlist` before the sentinel. -/
def definedCodes : List Int :=
  [0, EAI_BADFLAGS, EAI_NONAME, EAI_AGAIN, EAI_FAIL, EAI_NODATA, EAI_FAMILY, EAI_SOCKTYPE,
   EAI_SERVICE, EAI_ADDRFAMILY, EAI_MEMORY, EAI_OVERFLOW, EAI_SYSTEM]

/-- The search loop returns the unknown-code string or a non-empty message found in the table. -/
theorem gai_strerror_loop_cases :
    ∀ (l : List (Int × String)) (n : Int),
      gai_strerror_loop l n = gai_unknownerr ∨
        ((n, gai_strerror_loop l n) ∈ l ∧ gai_strerror_loop l n ≠ "") := by
  intro l
  induction l with
  | nil => intro n; exact Or.inl rfl
  | cons p rest ih =>
    intro n
    obtain ⟨c, m⟩ := p
    unfold gai_strerror_loop
    by_cases hm : m = ""
    · rw [if_pos hm]; exact Or.inl rfl
    · rw [if_neg hm]
      by_cases hn : n = c
      · rw [if_pos hn]
        exact Or.inr ⟨hn ▸ List.mem_cons_self (n, m) rest, hm⟩
      · rw [if_neg hn]
        rcases ih n with h | ⟨h1, h2⟩
        · exact Or.inl h
        · exact Or.inr ⟨List.mem_cons_of_mem _ h1, h2⟩

/-- The search loop falls through to the unknown-code string when no live entry matches. -/
theorem gai_strerror_loop_miss :
    ∀ (l : List (Int × String)) (n : Int),
      (∀ p ∈ l, n ≠ p.1 ∨ p.2 = "") → gai_strerror_loop l n = gai_unknownerr := by
  intro l
  induction l with
  | nil => intro n _; rfl
  | cons p rest ih =>
    intro n h
    obtain ⟨c, m⟩ := p
    unfold gai_strerror_loop
    by_cases hm : m = ""
    · rw [if_pos hm]
    · rw [if_neg hm]
      rcases h (c, m) (List.mem_cons_self _ _) with hne | hemp
      · rw [if_neg hne]
        exact ih n fun q hq => h q (List.mem_cons_of_mem _ hq)
      · exact absurd hemp hm

/--
C9: `gai_strerror` returns a non-empty string for every integer code;
each code of the defined enumeration maps to its fixed descriptive
string, and every code outside the defined set (e.g. -999) returns
exactly the fixed string "Unrecognized error number".  The model is a
pure read-only table lookup (no allocation or mutation).
-/
theorem gai_strerror_spec :
    (∀ n : Int, gai_strerror n ≠ "") ∧
    (∀ n : Int, n ∉ definedCodes → gai_strerror n = gai_unknownerr) ∧
    gai_strerror 0 = "Error 0" ∧
    gai_strerror EAI_BADFLAGS = "Invalid flag used" ∧
    gai_strerror EAI_NONAME = "Host or service not found" ∧
    gai_strerror EAI_AGAIN = "Temporary name service failure" ∧
    gai_strerror EAI_FAIL = "Non-recoverable name service failure" ∧
    gai_strerror EAI_NODATA = "No data for host name" ∧
    gai_strerror EAI_FAMILY = "Unsupported address family" ∧
    gai_strerror EAI_SOCKTYPE = "Unsupported socket type" ∧
    gai_strerror EAI_SERVICE = "Incompatible service for socket type" ∧
    gai_strerror EAI_ADDRFAMILY = "Unavailable address family for host name" ∧
    gai_strerror EAI_MEMORY = "Memory allocation failure" ∧
    gai_strerror EAI_OVERFLOW = "Buffer overflow" ∧
    gai_strerror EAI_SYSTEM = "System error" ∧
    gai_unknownerr = "Unrecognized error number" := by
  refine ⟨?_, ?_, by decide, by decide, by decide, by decide, by decide, by decide, by decide,
    by decide, by decide, by decide, by decide, by decide, by decide, by decide⟩
  · intro n
    show gai_strerror_loop gai_errlist n ≠ ""
    rcases gai_strerror_loop_cases gai_errlist n with h | ⟨_, h2⟩
    · rw [h]; decide
    · exact h2
  · intro n hn
    simp only [definedCodes, List.mem_cons, List.not_mem_nil, or_false, not_or] at hn
    unfold gai_strerror
    apply gai_strerror_loop_miss
    intro p hp
    simp only [gai_errlist, List.mem_cons, List.not_mem_nil, or_false] at hp
    rcases hp with rfl | rfl | rfl | rfl | rfl | rfl | rfl | rfl | rfl | rfl | rfl | rfl | rfl | rfl
    all_goals first
      | exact Or.inr rfl
      | (left; simp_all [EAI_BADFLAGS, EAI_NONAME, EAI_AGAIN, EAI_FAIL, EAI_NODATA, EAI_FAMILY,
          EAI_SOCKTYPE, EAI_SERVICE, EAI_ADDRFAMILY, EAI_MEMORY, EAI_OVERFLOW, EAI_SYSTEM])

/-- C9 witness: the unrecognized-code clause applied at the concrete code -999. -/
theorem gai_strerror_spec_w : gai_strerror (-999) = gai_unknownerr :=
  gai_strerror_spec.2.1 (-999) (by decide)

/--
C10: an empty service string "" is accepted: `strtoul` consumes
nothing, `end` is left at the terminator with `d = 0`, so the call does
not fail with `EAI_SERVICE` and behaves exactly as if the service
argument had been NULL (port 0).
-/
theorem getaddrinfo_empty_service :
    servicePort (some "") = .ok 0 ∧
    ∀ (env : Env) (node : Option String) (hints : Option Hints) (res0 : List ANode) (s0 : St),
      getaddrinfo env node (some "") hints res0 s0 = getaddrinfo env node none hints res0 s0 := by
  refine ⟨rfl, ?_⟩
  intro env node hints res0 s0
  unfold getaddrinfo
  rcases hp : hintsParse hints with e | pf
  · rfl
  · rcases ha : addrStage env pf.2 node s0 with ⟨er | ipn, s⟩
    · rfl
    · rfl

/--
C5 (amended): with a non-numeric hostname and `AI_NUMERICHOST`, the
name lookup is skipped (no `gethostbyname` call, state unchanged) and
the call fails — but the error code is `gai_error_from_herrno` applied
to whatever `h_errno` value was left over from earlier platform calls;
it equals `EAI_NONAME` exactly when that leftover value is
`HOST_NOT_FOUND`.
-/
theorem getaddrinfo_numerichost_skips_lookup :
    (∀ (g : String → HostLookup) (aok : Nat → Bool) (h0 : Nat) (res0 : List ANode),
        getaddrinfo ⟨g, aok⟩ (some "example.com") none (some ⟨AI_NUMERICHOST, 0, 0, 0⟩) res0
            (initSt h0) =
          (gai_error_from_herrno h0, [], initSt h0)) ∧
    gai_error_from_herrno HOST_NOT_FOUND = EAI_NONAME := by
  exact ⟨fun g aok h0 res0 => rfl, rfl⟩

/--
C2 (amended): when the UDP record has been built and linked and the TCP
node allocation then fails, the call sets `errno = ENOMEM` and returns
`EAI_SYSTEM`, but performs no rollback: nothing is freed and the
caller's output pointer still holds the one-element UDP list.
-/
theorem getaddrinfo_tcp_alloc_fail_no_rollback :
    ∀ (g : String → HostLookup) (h0 : Nat) (res0 : List ANode),
      getaddrinfo ⟨g, fun i => decide (i < 2)⟩ (some "1.2.3.4") none none res0 (initSt h0) =
        (EAI_SYSTEM,
         [⟨0, 0, AF_INET, SOCK_DGRAM, IPPROTO_UDP, SIZEOF_SOCKADDR_IN,
           some (1, ⟨AF_INET, SIZEOF_SOCKADDR_IN, 0, inet_addr "1.2.3.4"⟩), none⟩],
         ⟨3, [0, 1], [], h0, some ENOMEM, false⟩) := by
  exact fun g h0 res0 => rfl

/--
C4 (amended): every numeric literal that `inet_addr` parses to a value
other than `INADDR_NONE` is used directly — no name lookup, no state
change — and both returned records embed exactly that 32-bit address
(port 0 for service "0").  The excluded literal "255.255.255.255"
parses to `INADDR_NONE` and is instead routed to the lookup path (see
the counterexample).
-/
theorem getaddrinfo_numeric_literal_direct :
    ∀ (g : String → HostLookup) (h0 : Nat) (N : String),
      inet_addr N ≠ INADDR_NONE →
      getaddrinfo ⟨g, fun _ => true⟩ (some N) (some "0") (some ⟨AI_NUMERICHOST, 0, 0, 0⟩) []
          (initSt h0) =
        (0,
         [⟨2, 0, AF_INET, SOCK_STREAM, IPPROTO_TCP, SIZEOF_SOCKADDR_IN,
           some (3, ⟨AF_INET, SIZEOF_SOCKADDR_IN, 0, inet_addr N⟩), none⟩,
          ⟨0, 0, AF_INET, SOCK_DGRAM, IPPROTO_UDP, SIZEOF_SOCKADDR_IN,
           some (1, ⟨AF_INET, SIZEOF_SOCKADDR_IN, 0, inet_addr N⟩), none⟩],
         ⟨4, [0, 1, 2, 3], [], h0, none, false⟩) := by
  intro g h0 N hN
  have ha : addrStage ⟨g, fun _ => true⟩ AI_NUMERICHOST (some N) (initSt h0) =
      (.ok (inet_addr N, none), initSt h0) := by
    dsimp only [addrStage]
    rw [if_neg hN]
  unfold getaddrinfo
  simp only [show hintsParse (some ⟨AI_NUMERICHOST, 0, 0, 0⟩) = .ok (0, AI_NUMERICHOST) from rfl]
  rw [ha]
  rfl

/-- C4 witness: the amended theorem applied at the concrete literal "1.2.3.4". -/
theorem getaddrinfo_numeric_literal_direct_w :
    inet_addr "1.2.3.4" ≠ INADDR_NONE ∧
    getaddrinfo ⟨fun _ => HostLookup.notfound HOST_NOT_FOUND, fun _ => true⟩ (some "1.2.3.4")
        (some "0") (some ⟨AI_NUMERICHOST, 0, 0, 0⟩) [] (initSt HOST_NOT_FOUND) =
      (0,
       [⟨2, 0, AF_INET, SOCK_STREAM, IPPROTO_TCP, SIZEOF_SOCKADDR_IN,
         some (3, ⟨AF_INET, SIZEOF_SOCKADDR_IN, 0, inet_addr "1.2.3.4"⟩), none⟩,
        ⟨0, 0, AF_INET, SOCK_DGRAM, IPPROTO_UDP, SIZEOF_SOCKADDR_IN,
         some (1, ⟨AF_INET, SIZEOF_SOCKADDR_IN, 0, inet_addr "1.2.3.4"⟩), none⟩],
       ⟨4, [0, 1, 2, 3], [], HOST_NOT_FOUND, none, false⟩) :=
  ⟨by decide,
   getaddrinfo_numeric_literal_direct (fun _ => HostLookup.notfound HOST_NOT_FOUND)
     HOST_NOT_FOUND "1.2.3.4" (by decide)⟩

/-- `gai_error_from_herrno` never returns 0. -/
theorem gai_herrno_ne_zero (h : Nat) : gai_error_from_herrno h ≠ 0 := by
  unfold gai_error_from_herrno
  split_ifs <;> decide

/-- A socket-type hint rejected by the switch yields exactly `EAI_SOCKTYPE`. -/
theorem socktypeProto_error (st : Nat) (e : Int) (h : socktypeProto st = .error e) :
    e = EAI_SOCKTYPE := by
  unfold socktypeProto at h
  repeat' split at h
  all_goals simp_all

/-- The protocol derived by the socket-type switch: value and its relation to the hint. -/
theorem socktypeProto_ok (st p : Nat) (h : socktypeProto st = .ok p) :
    (p = 0 ∨ p = IPPROTO_TCP ∨ p = IPPROTO_UDP) ∧
    (st = SOCK_STREAM → p = IPPROTO_TCP) ∧
    (st = SOCK_DGRAM → p = IPPROTO_UDP) ∧
    (st = 0 → p = 0) := by
  unfold socktypeProto at h
  repeat' split at h
  all_goals first
    | (injection h with h1
       subst h1
       refine ⟨by decide, fun hst => ?_, fun hst => ?_, fun hst => ?_⟩ <;>
         simp_all [SOCK_STREAM, SOCK_DGRAM, SOCK_RAW, IPPROTO_TCP, IPPROTO_UDP])
    | injection h

/-- Hint-validation errors are the four specific negative codes, never 0. -/
theorem hintsParse_error_cases :
    ∀ (hints : Option Hints) (e : Int),
      hintsParse hints = .error e →
      e = EAI_BADFLAGS ∨ e = EAI_FAMILY ∨ e = EAI_SOCKTYPE ∨ e = EAI_SERVICE := by
  intro hints e h
  cases hints with
  | none => simp [hintsParse] at h
  | some hh =>
    simp only [hintsParse] at h
    split at h
    · injection h with h1; subst h1; decide
    split at h
    · injection h with h1; subst h1; decide
    split at h
    next scr pv heq =>
      injection h with h1
      subst h1
      rw [socktypeProto_error _ _ heq]
      decide
    next scr pv heq =>
      split at h
      · injection h with h1; subst h1; decide
      · injection h

/-- The protocol derived by hint validation is 0, TCP or UDP. -/
theorem hintsParse_ok_proto :
    ∀ (hints : Option Hints) (p f : Nat),
      hintsParse hints = .ok (p, f) →
      (p = 0 ∨ p = IPPROTO_TCP ∨ p = IPPROTO_UDP) ∧
      (∀ hh, hints = some hh →
        (hh.ai_socktype = SOCK_STREAM → p = IPPROTO_TCP) ∧
        (hh.ai_socktype = SOCK_DGRAM → p = IPPROTO_UDP) ∧
        (hh.ai_socktype = 0 → p = 0)) ∧
      (hints = none → p = 0) := by
  intro hints p f h
  cases hints with
  | none =>
    simp only [hintsParse, Except.ok.injEq, Prod.mk.injEq] at h
    obtain ⟨hp, _⟩ := h
    subst hp
    refine ⟨Or.inl rfl, ?_, fun _ => rfl⟩
    intro hh hc
    exact Option.noConfusion hc
  | some hh =>
    simp only [hintsParse] at h
    split at h
    · injection h
    split at h
    · injection h
    split at h
    next scr pv heq => injection h
    next scr pv heq =>
      split at h
      · injection h
      · injection h with h1
        rw [Prod.mk.injEq] at h1
        obtain ⟨h2, _⟩ := h1
        subst h2
        obtain ⟨hv, hs1, hs2, hs0⟩ := socktypeProto_ok _ _ heq
        refine ⟨hv, ?_, fun hc => Option.noConfusion hc⟩
        intro hh2 hc
        injection hc with hc1
        subst hc1
        exact ⟨hs1, hs2, hs0⟩

/-- A service-resolution failure is exactly `EAI_SERVICE`. -/
theorem servicePort_error_eq :
    ∀ (sv : Option String) (e : Int), servicePort sv = .error e → e = EAI_SERVICE := by
  intro sv e h
  cases sv with
  | none => simp [servicePort] at h
  | some s =>
    simp only [servicePort] at h
    split at h
    · injection h with h1; exact h1.symm
    · injection h

/-- The address-determination block never fails with error code 0. -/
theorem addrStage_error_ne_zero :
    ∀ (env : Env) (flags : Nat) (node : Option String) (s : St) (e : Int) (s' : St),
      addrStage env flags node s = (.error e, s') → e ≠ 0 := by
  intro env flags node s e s' h
  cases node with
  | none => simp [addrStage] at h
  | some nd =>
    simp only [addrStage] at h
    split at h
    · split at h
      · rw [Prod.mk.injEq] at h
        obtain ⟨h1, _⟩ := h
        injection h1 with h2
        rw [← h2]
        exact gai_herrno_ne_zero _
      · split at h
        · rw [Prod.mk.injEq] at h
          obtain ⟨h1, _⟩ := h
          injection h1 with h2
          rw [← h2]
          decide
        · rw [Prod.mk.injEq] at h
          obtain ⟨h1, _⟩ := h
          injection h1
    · rw [Prod.mk.injEq] at h
      obtain ⟨h1, _⟩ := h
      injection h1

/-- A record built by `makeaddrinfo` carries the requested family, type, protocol and zero flags. -/
theorem makeaddrinfo_some_fields :
    ∀ (env : Env) (af ty proto : Nat) (addr : SockAddrIn) (addrlen : Nat)
      (cn : Option String) (s : St) (r : ANode) (s' : St),
      makeaddrinfo env af ty proto addr addrlen cn s = (some r, s') →
      r.ai_protocol = proto ∧ r.ai_socktype = ty ∧ r.ai_family = af ∧ r.ai_flags = 0 := by
  intro env af ty proto addr addrlen cn s r s' h
  unfold makeaddrinfo at h
  repeat' split at h
  all_goals rw [Prod.mk.injEq] at h
  all_goals obtain ⟨h1, _⟩ := h
  all_goals first
    | (injection h1 with h2
       subst h2
       exact ⟨rfl, rfl, rfl, rfl⟩)
    | injection h1

/-- Same fields fact lifted through `makeipv4info`. -/
theorem makeipv4info_some_fields :
    ∀ (env : Env) (ty proto ip port : Nat) (name : Option String) (s : St) (r : ANode) (s' : St),
      makeipv4info env ty proto ip port name s = (some r, s') →
      r.ai_protocol = proto ∧ r.ai_socktype = ty := by
  intro env ty proto ip port name s r s' h
  have := makeaddrinfo_some_fields env AF_INET ty proto _ SIZEOF_SOCKADDR_IN name s r s' h
  exact ⟨this.1, this.2.1⟩

/-- `passiveAdjust` touches only `ai_flags`. -/
theorem passiveAdjust_protocol (f : Nat) (i : ANode) :
    (passiveAdjust f i).ai_protocol = i.ai_protocol := by
  unfold passiveAdjust
  split <;> rfl

/-- The TCP build step: result list shape when it returns 0. -/
theorem tcpStep_shape :
    ∀ (env : Env) (p f ip port : Nat) (name : Option String) (res0 : List ANode) (s : St)
      (ret : Int) (res : List ANode) (s' : St),
      tcpStep env p f ip port name res0 s = (ret, res, s') → ret = 0 →
      ((p = 0 ∨ p = IPPROTO_TCP) →
        ∃ t, res = t :: res0 ∧ t.ai_protocol = IPPROTO_TCP) ∧
      (¬(p = 0 ∨ p = IPPROTO_TCP) → res = res0) := by
  intro env p f ip port name res0 s ret res s' h hz
  unfold tcpStep at h
  split at h
  next hp =>
    split at h
    next heq =>
      rw [Prod.mk.injEq] at h
      obtain ⟨h1, _⟩ := h
      rw [← h1] at hz
      exact absurd hz (by decide)
    next info s2 heq =>
      rw [Prod.mk.injEq] at h
      obtain ⟨h1, h2⟩ := h
      rw [Prod.mk.injEq] at h2
      obtain ⟨h2, _⟩ := h2
      refine ⟨fun _ => ⟨passiveAdjust f info, h2.symm, ?_⟩, fun hnp => absurd hp hnp⟩
      rw [passiveAdjust_protocol]
      exact (makeipv4info_some_fields env SOCK_STREAM IPPROTO_TCP ip port name s info s2 heq).1
  next hp =>
    rw [Prod.mk.injEq] at h
    obtain ⟨_, h2⟩ := h
    rw [Prod.mk.injEq] at h2
    exact ⟨fun hpp => absurd hpp hp, fun _ => h2.1.symm⟩

/-- The result-building block: list shape per derived protocol when it returns 0. -/
theorem buildStage_shape :
    ∀ (env : Env) (p f ip port : Nat) (name : Option String) (s : St)
      (ret : Int) (res : List ANode) (s' : St),
      buildStage env p f ip port name s = (ret, res, s') → ret = 0 →
      ((p = 0 → res.map ANode.ai_protocol = [IPPROTO_TCP, IPPROTO_UDP]) ∧
       (p = IPPROTO_TCP → res.map ANode.ai_protocol = [IPPROTO_TCP]) ∧
       (p = IPPROTO_UDP → res.map ANode.ai_protocol = [IPPROTO_UDP])) := by
  intro env p f ip port name s ret res s' h hz
  unfold buildStage at h
  split at h
  next hpu =>
    split at h
    next heq =>
      rw [Prod.mk.injEq] at h
      obtain ⟨h1, _⟩ := h
      rw [← h1] at hz
      exact absurd hz (by decide)
    next info s2 heq =>
      have hu : (passiveAdjust f info).ai_protocol = IPPROTO_UDP := by
        rw [passiveAdjust_protocol]
        exact (makeipv4info_some_fields env SOCK_DGRAM IPPROTO_UDP ip port name s info s2 heq).1
      obtain ⟨ht, hnt⟩ := tcpStep_shape env p f ip port name _ s2 ret res s' h hz
      constructor
      · intro hp0
        obtain ⟨t, hres, htp⟩ := ht (Or.inl hp0)
        rw [hres]
        simp [htp, hu]
      constructor
      · intro hp6
        exfalso
        rcases hpu with h0 | h17
        · rw [hp6] at h0; exact absurd h0 (by decide)
        · rw [hp6] at h17; exact absurd h17 (by decide)
      · intro hp17
        rw [hnt (by rw [hp17]; decide)]
        simp [hu]
  next hpu =>
    obtain ⟨ht, hnt⟩ := tcpStep_shape env p f ip port name [] s ret res s' h hz
    have hp6 : p = IPPROTO_TCP → res.map ANode.ai_protocol = [IPPROTO_TCP] := by
      intro hp6
      obtain ⟨t, hres, htp⟩ := ht (Or.inr hp6)
      rw [hres]
      simp [htp]
    refine ⟨fun hp0 => absurd (Or.inl hp0) hpu, hp6, fun hp17 => ?_⟩
    exfalso
    exact hpu (Or.inr hp17)

/-- The result-building block returns either 0 or `EAI_SYSTEM`. -/
theorem buildStage_ret01 :
    ∀ (env : Env) (p f ip port : Nat) (name : Option String) (s : St)
      (ret : Int) (res : List ANode) (s' : St),
      buildStage env p f ip port name s = (ret, res, s') → ret = 0 ∨ ret = EAI_SYSTEM := by
  intro env p f ip port name s ret res s' h
  unfold buildStage tcpStep at h
  repeat' split at h
  all_goals rw [Prod.mk.injEq] at h
  all_goals obtain ⟨h1, _⟩ := h
  all_goals rw [← h1]
  all_goals first
    | exact Or.inl rfl
    | exact Or.inr rfl

/--
C7: for every successful call (return 0): socket-type hint STREAM gives
exactly one record, with protocol TCP; DGRAM gives exactly one UDP
record; an unspecified socket type (0, or NULL hints) gives exactly two
records with the TCP record preceding the UDP record.
-/
theorem getaddrinfo_socktype_result_shape :
    ∀ (env : Env) (node sv : Option String) (hints : Option Hints) (res0 : List ANode) (s0 : St)
      (ret : Int) (res : List ANode) (s' : St),
      getaddrinfo env node sv hints res0 s0 = (ret, res, s') → ret = 0 →
      (∀ hh, hints = some hh →
        (hh.ai_socktype = SOCK_STREAM → res.map ANode.ai_protocol = [IPPROTO_TCP]) ∧
        (hh.ai_socktype = SOCK_DGRAM → res.map ANode.ai_protocol = [IPPROTO_UDP]) ∧
        (hh.ai_socktype = 0 → res.map ANode.ai_protocol = [IPPROTO_TCP, IPPROTO_UDP])) ∧
      (hints = none → res.map ANode.ai_protocol = [IPPROTO_TCP, IPPROTO_UDP]) := by
  intro env node sv hints res0 s0 ret res s' h hz
  unfold getaddrinfo at h
  split at h
  next e heqh =>
    exfalso
    rw [Prod.mk.injEq] at h
    obtain ⟨h1, _⟩ := h
    have hcases := hintsParse_error_cases hints e heqh
    rcases hcases with rfl | rfl | rfl | rfl <;> exact absurd (h1.trans hz) (by decide)
  next pf heqh =>
    split at h
    next e s1 heqa =>
      exfalso
      rw [Prod.mk.injEq] at h
      obtain ⟨h1, _⟩ := h
      exact addrStage_error_ne_zero env pf.2 node s0 e s1 heqa (h1.trans hz)
    next ipn s1 heqa =>
      dsimp only [] at h
      split at h
      next e2 heqs =>
        exfalso
        rw [Prod.mk.injEq] at h
        obtain ⟨h1, _⟩ := h
        rw [servicePort_error_eq sv e2 heqs] at h1
        exact absurd (h1.trans hz) (by decide)
      next port heqs =>
        obtain ⟨hv, hsome, hnone⟩ := hintsParse_ok_proto hints pf.1 pf.2 (by rw [heqh])
        have hb := buildStage_shape env pf.1 pf.2 ipn.1 port _ s1 ret res s' h hz
        constructor
        · intro hh hhs
          obtain ⟨k1, k2, k0⟩ := hsome hh hhs
          exact ⟨fun hst => hb.2.1 (k1 hst), fun hst => hb.2.2 (k2 hst),
            fun hst => hb.1 (k0 hst)⟩
        · intro hn
          exact hb.1 (hnone hn)

/-- C7 witness: a concrete successful NULL-hints call produces [TCP, UDP]. -/
theorem getaddrinfo_socktype_result_shape_w :
    (getaddrinfo envAllOK (some "1.2.3.4") none none [] (initSt HOST_NOT_FOUND)).2.1.map
        ANode.ai_protocol = [IPPROTO_TCP, IPPROTO_UDP] :=
  (getaddrinfo_socktype_result_shape envAllOK (some "1.2.3.4") none none [] (initSt HOST_NOT_FOUND)
      _ _ _ rfl (by decide)).2 rfl

/--
C3 (amended): hint-validation failures (BADFLAGS, FAMILY, SOCKTYPE, and
the protocol-mismatch SERVICE) return their error code with the
caller's `*res` left untouched — not set to null — because they fire
before `*res = NULL`.  Once hint validation has passed, `*res` is
nulled first; every later failure other than the allocation-failure
`EAI_SYSTEM` leaves `*res` null, and success (0) leaves `*res` holding
a non-empty list.  (An `EAI_SYSTEM` failure can leave the partially
built UDP-only list in `*res`, as C2's counterexample shows.)
-/
theorem getaddrinfo_res_output_discipline :
    ∀ (env : Env) (node sv : Option String) (hints : Option Hints) (res0 : List ANode) (s0 : St),
      (∀ e, hintsParse hints = .error e →
        getaddrinfo env node sv hints res0 s0 = (e, res0, s0)) ∧
      (∀ (p f : Nat) (ret : Int) (res : List ANode) (s' : St),
        hintsParse hints = .ok (p, f) →
        getaddrinfo env node sv hints res0 s0 = (ret, res, s') →
        (ret = 0 → res ≠ []) ∧ (ret ≠ 0 → ret ≠ EAI_SYSTEM → res = [])) := by
  intro env node sv hints res0 s0
  constructor
  · intro e he
    unfold getaddrinfo
    rw [he]
  · intro p f ret res s' hok h
    unfold getaddrinfo at h
    split at h
    next e heqh =>
      rw [hok] at heqh
      exact Except.noConfusion heqh
    next pf heqh =>
      rw [hok] at heqh
      injection heqh with h1
      subst h1
      split at h
      next e s1 heqa =>
        rw [Prod.mk.injEq] at h
        obtain ⟨h1, h2⟩ := h
        rw [Prod.mk.injEq] at h2
        obtain ⟨h2, _⟩ := h2
        exact ⟨fun hz => absurd (h1.trans hz) (addrStage_error_ne_zero _ _ _ _ _ _ heqa),
          fun _ _ => h2.symm⟩
      next ipn s1 heqa =>
        dsimp only [] at h
        split at h
        next e2 heqs =>
          rw [Prod.mk.injEq] at h
          obtain ⟨h1, h2⟩ := h
          rw [Prod.mk.injEq] at h2
          obtain ⟨h2, _⟩ := h2
          rw [servicePort_error_eq _ _ heqs] at h1
          exact ⟨fun hz => absurd (h1.trans hz) (by decide), fun _ _ => h2.symm⟩
        next port heqs =>
          constructor
          · intro hz
            obtain ⟨hv, _, _⟩ := hintsParse_ok_proto hints p f hok
            have hb := buildStage_shape _ _ _ _ _ _ _ _ _ _ h hz
            intro hemp
            rcases hv with rfl | rfl | rfl
            · have := hb.1 rfl
              rw [hemp] at this
              simp at this
            · have := hb.2.1 rfl
              rw [hemp] at this
              simp at this
            · have := hb.2.2 rfl
              rw [hemp] at this
              simp at this
          · intro hnz hns
            exfalso
            rcases buildStage_ret01 _ _ _ _ _ _ _ _ _ _ h with h0 | hsys
            · exact hnz h0
            · exact hns hsys

/-- C3 witness: the validation-failure clause applied at a concrete BADFLAGS call. -/
theorem getaddrinfo_res_output_discipline_w :
    getaddrinfo envAllOK (some "1.2.3.4") none (some ⟨8, 0, 0, 0⟩) [garbageNode]
        (initSt HOST_NOT_FOUND) =
      (EAI_BADFLAGS, [garbageNode], initSt HOST_NOT_FOUND) :=
  (getaddrinfo_res_output_discipline envAllOK (some "1.2.3.4") none (some ⟨8, 0, 0, 0⟩)
      [garbageNode] (initSt HOST_NOT_FOUND)).1 EAI_BADFLAGS rfl

/--
C6 (amended): the hint-validation errors (BADFLAGS, FAMILY, SOCKTYPE,
and the protocol-mismatch SERVICE) are detected before any allocation
and any lookup — the call returns with the entire platform state
untouched — and are deterministic functions of the hints.  The SERVICE
error for an invalid service string, however, is detected only after
the hostname lookup: with a non-numeric hostname that resolves, the
call performs the `gethostbyname` lookup and then returns
`EAI_SERVICE` (still before any allocation).
-/
theorem getaddrinfo_validation_order :
    (∀ (env : Env) (node sv : Option String) (hints : Option Hints) (res0 : List ANode)
       (s0 : St) (e : Int),
       hintsParse hints = .error e →
       getaddrinfo env node sv hints res0 s0 = (e, res0, s0)) ∧
    (∀ (g : String → HostLookup) (aok : Nat → Bool) (hent : Hostent) (h0 : Nat),
       g "host.example" = .found hent → hent.h_length = 4 → hent.h_addrtype = AF_INET →
       getaddrinfo ⟨g, aok⟩ (some "host.example") (some "99999") none [] (initSt h0) =
         (EAI_SERVICE, [], ⟨0, [], [], h0, none, true⟩)) := by
  constructor
  · intro env node sv hints res0 s0 e he
    unfold getaddrinfo
    rw [he]
  · intro g aok hent h0 hg hl ha
    have hstage : addrStage ⟨g, aok⟩ 0 (some "host.example") (initSt h0) =
        (.ok (hent.h_addr, none), ⟨0, [], [], h0, none, true⟩) := by
      dsimp only [addrStage]
      rw [if_pos (show inet_addr "host.example" = INADDR_NONE from rfl)]
      rw [if_pos (show (0 : Nat) &&& AI_NUMERICHOST = 0 from rfl)]
      dsimp only [gethostbynameM]
      rw [hg]
      dsimp only []
      rw [if_neg (show ¬(hent.h_length ≠ 4 ∨ hent.h_addrtype ≠ AF_INET) by
        rw [hl, ha]; simp)]
      rw [if_neg (show ¬((0 : Nat) &&& AI_CANONNAME ≠ 0) by decide)]
      rfl
    unfold getaddrinfo
    simp only [show hintsParse none = .ok (0, 0) from rfl]
    rw [hstage]
    rfl

/-- C6 witness: the ordering theorem applied at a concrete resolving environment. -/
theorem getaddrinfo_validation_order_w :
    getaddrinfo ⟨fun _ => HostLookup.found ⟨"host.example", AF_INET, 4, 0x0100007F⟩, fun _ => true⟩
        (some "host.example") (some "99999") none [] (initSt HOST_NOT_FOUND) =
      (EAI_SERVICE, [], ⟨0, [], [], HOST_NOT_FOUND, none, true⟩) :=
  getaddrinfo_validation_order.2 (fun _ => HostLookup.found ⟨"host.example", AF_INET, 4, 0x0100007F⟩)
    (fun _ => true) ⟨"host.example", AF_INET, 4, 0x0100007F⟩ HOST_NOT_FOUND rfl rfl rfl

/-- A string that fits its buffer (strictly below capacity) is written whole by `snprintf`. -/
theorem snprintfOut_full (cap : Nat) (s : String) (h : s.length < cap) :
    snprintfOut cap s = s := by
  obtain ⟨data⟩ := s
  have h2 : data.length ≤ cap - 1 := by
    have h3 : data.length < cap := h
    omega
  unfold snprintfOut
  exact congrArg String.mk (List.take_of_length_le h2)

/--
C8: for a valid IPv4 socket address with `NI_NUMERICHOST|NI_NUMERICSERV`
and buffers large enough, `getnameinfo` returns 0 with the host buffer
holding the dotted-decimal address and the service buffer the decimal
port; if either formatted string does not fit its own buffer capacity
the call fails with `EAI_OVERFLOW`, each buffer checked independently
(host first).
-/
theorem getnameinfo_numeric_spec :
    ∀ (sa : SockAddrIn) (salen hl sl : Nat),
      SIZEOF_SOCKADDR_IN ≤ salen → sa.sin_family = AF_INET →
      ((ipv4Dotted (ntohl sa.sin_addr)).length < hl →
        (toString (ntohs sa.sin_port)).length < sl →
        getnameinfo sa salen (some hl) (some sl) (NI_NUMERICHOST ||| NI_NUMERICSERV) =
          (0, some (ipv4Dotted (ntohl sa.sin_addr)), some (toString (ntohs sa.sin_port)))) ∧
      (hl ≤ (ipv4Dotted (ntohl sa.sin_addr)).length →
        (getnameinfo sa salen (some hl) (some sl) (NI_NUMERICHOST ||| NI_NUMERICSERV)).1 =
          EAI_OVERFLOW) ∧
      ((ipv4Dotted (ntohl sa.sin_addr)).length < hl →
        sl ≤ (toString (ntohs sa.sin_port)).length →
        (getnameinfo sa salen (some hl) (some sl) (NI_NUMERICHOST ||| NI_NUMERICSERV)).1 =
          EAI_OVERFLOW) := by
  intro sa salen hl sl hsal hfam
  have hg1 : ¬(salen < SIZEOF_SOCKADDR_IN ∨ sa.sin_family ≠ AF_INET) := by
    rw [hfam]
    simp only [ne_eq, not_true_eq_false, or_false, not_lt]
    exact hsal
  have hg2 : ¬((NI_NUMERICHOST ||| NI_NUMERICSERV) &&& NI_MASK ≠
      (NI_NUMERICHOST ||| NI_NUMERICSERV)) := by decide
  have hg3 : ¬((NI_NUMERICHOST ||| NI_NUMERICSERV) &&& NI_NUMERICHOST = 0 ∧
      (NI_NUMERICHOST ||| NI_NUMERICSERV) &&& NI_NAMEREQD ≠ 0) := by decide
  refine ⟨?_, ?_, ?_⟩
  · intro hfit sfit
    unfold getnameinfo
    rw [if_neg hg1, if_neg hg2]
    dsimp only []
    rw [if_neg hg3]
    rw [if_neg (show ¬((ipv4Dotted (ntohl sa.sin_addr)).length ≥ hl) by omega)]
    unfold servStep
    dsimp only []
    rw [if_neg (show ¬((toString (ntohs sa.sin_port)).length ≥ sl) by omega)]
    rw [snprintfOut_full hl _ hfit, snprintfOut_full sl _ sfit]
  · intro hover
    unfold getnameinfo
    rw [if_neg hg1, if_neg hg2]
    dsimp only []
    rw [if_neg hg3]
    rw [if_pos (show (ipv4Dotted (ntohl sa.sin_addr)).length ≥ hl from hover)]
  · intro hfit sover
    unfold getnameinfo
    rw [if_neg hg1, if_neg hg2]
    dsimp only []
    rw [if_neg hg3]
    rw [if_neg (show ¬((ipv4Dotted (ntohl sa.sin_addr)).length ≥ hl) by omega)]
    unfold servStep
    dsimp only []
    rw [if_pos (show (toString (ntohs sa.sin_port)).length ≥ sl from sover)]

/--
C8 witness: address 192.168.1.1, port 8080, ample buffers: host
"192.168.1.1" and service "8080"; the theorem instantiated concretely.
-/
theorem getnameinfo_numeric_spec_w :
    getnameinfo ⟨AF_INET, SIZEOF_SOCKADDR_IN, htons 8080, htonl 0xC0A80101⟩ SIZEOF_SOCKADDR_IN
        (some 16) (some 8) (NI_NUMERICHOST ||| NI_NUMERICSERV) =
      (0, some "192.168.1.1", some "8080") := by
  have h := (getnameinfo_numeric_spec ⟨AF_INET, SIZEOF_SOCKADDR_IN, htons 8080, htonl 0xC0A80101⟩
    SIZEOF_SOCKADDR_IN 16 8 (by decide) rfl).1 (by decide) (by decide)
  rw [h]
  rfl

end GAI
